import Mathlib

/-!
Verification of the serverless Postgres driver core (`export/index.ts` and the
declared transport/HTTP interfaces) against its natural-language specification.

The development shallowly embeds the TypeScript source:

* bytes are `List Nat` (each entry a value 0..255, as stored in a `Uint8Array`);
* the asynchronous cryptographic provider (`crypto.subtle`) is abstracted as a
  pair of function parameters `hmac` (HMAC-SHA-256: key, message to digest) and
  `sha256` (SHA-256 digest), so every theorem holds for the real primitives;
* fallible code returns `Except String`, with the thrown message preserved;
* the pg `Connection` event-emitter surface touched by `NeonClient.connect`
  is modelled as an ordered listener table with Node `on`, `once` and
  `removeAllListeners` semantics.
-/

namespace Neon

/-- UTF-8 encoding of a Unicode code point, as produced by `TextEncoder`. -/
def utf8Bytes (c : Nat) : List Nat :=
  if c < 0x80 then [c]
  else if c < 0x800 then [0xC0 + c / 0x40, 0x80 + c % 0x40]
  else if c < 0x10000 then
    [0xE0 + c / 0x1000, 0x80 + c / 0x40 % 0x40, 0x80 + c % 0x40]
  else
    [0xF0 + c / 0x40000, 0x80 + c / 0x1000 % 0x40, 0x80 + c / 0x40 % 0x40, 0x80 + c % 0x40]

/-- `enc.encode(s)` for a `TextEncoder` `enc`: the UTF-8 bytes of `s`. -/
def strBytes (s : String) : List Nat :=
  s.data.foldr (fun c acc => utf8Bytes c.toNat ++ acc) []

/-- `a.map((_, i) => a[i] ^ b[i])` on typed arrays: an index-wise XOR running
over the length of `a`; a missing `b[i]` coerces to `0` in a JS bitwise op. -/
def jsXor (a b : List Nat) : List Nat :=
  (List.range a.length).map (fun i => (a.getD i 0) ^^^ (b.getD i 0))

/-- The base64 alphabet, index 0..63. -/
def b64Alphabet : List Char :=
  "ABCDEFGHIJKLMNOPQRSTUVWXYZabcdefghijklmnopqrstuvwxyz0123456789+/".data

def b64CharAt (n : Nat) : Char := b64Alphabet.getD n 'A'

/-- `Buffer.prototype.toString("base64")`: standard base64 with padding. -/
def base64Chunks : List Nat → List Char
  | a :: b :: c :: rest =>
      let n := a % 256 * 65536 + b % 256 * 256 + c % 256
      b64CharAt (n / 262144) :: b64CharAt (n / 4096 % 64) ::
        b64CharAt (n / 64 % 64) :: b64CharAt (n % 64) :: base64Chunks rest
  | [a, b] =>
      let n := a % 256 * 65536 + b % 256 * 256
      [b64CharAt (n / 262144), b64CharAt (n / 4096 % 64), b64CharAt (n / 64 % 64), '=']
  | [a] =>
      let n := a % 256 * 65536
      [b64CharAt (n / 262144), b64CharAt (n / 4096 % 64), '=', '=']
  | [] => []

def base64Encode (bs : List Nat) : String := String.mk (base64Chunks bs)

/-- Value of one base64 alphabet character (0 for characters outside it). -/
def b64Value (c : Char) : Nat :=
  if 65 ≤ c.toNat ∧ c.toNat ≤ 90 then c.toNat - 65
  else if 97 ≤ c.toNat ∧ c.toNat ≤ 122 then c.toNat - 97 + 26
  else if 48 ≤ c.toNat ∧ c.toNat ≤ 57 then c.toNat - 48 + 52
  else if c = '+' then 62
  else if c = '/' then 63
  else 0

/-- `Buffer.from(s, "base64")` on a string already validated by the
base64 regular expression: groups of four characters decode to three bytes,
a padded tail to one or two. -/
def base64DecodeChars : List Char → List Nat
  | a :: b :: '=' :: '=' :: _ => [b64Value a * 4 + b64Value b / 16]
  | a :: b :: c :: '=' :: _ =>
      [b64Value a * 4 + b64Value b / 16, b64Value b % 16 * 16 + b64Value c / 4]
  | a :: b :: c :: d :: rest =>
      (b64Value a * 4 + b64Value b / 16) ::
      (b64Value b % 16 * 16 + b64Value c / 4) ::
      (b64Value c % 4 * 64 + b64Value d) :: base64DecodeChars rest
  | _ => []

def base64Decode (s : String) : List Nat := base64DecodeChars s.data

/-- Membership in the base64 character class `[a-zA-Z0-9+/]`. -/
def isB64Char (c : Char) : Bool :=
  (65 ≤ c.toNat && c.toNat ≤ 90) || (97 ≤ c.toNat && c.toNat ≤ 122) ||
  (48 ≤ c.toNat && c.toNat ≤ 57) || c = '+' || c = '/'

/-- The salt regular expression from line 111:
`(?:[a-zA-Z0-9+/]{4})*(?:[a-zA-Z0-9+/]{2}==|[a-zA-Z0-9+/]{3}=)?` anchored at
both ends: zero or more plain quadruples, optionally closed by a padded tail. -/
def b64Body : List Char → Bool
  | [] => true
  | [a, b, '=', '='] => isB64Char a && isB64Char b
  | [a, b, c, '='] => isB64Char a && isB64Char b && isB64Char c
  | a :: b :: c :: d :: rest =>
      isB64Char a && isB64Char b && isB64Char c && isB64Char d && b64Body rest
  | _ => false

def validBase64 (s : String) : Bool := b64Body s.data

/-- Membership in `[!-+--~]`: printable ASCII 0x21..0x7E except the comma. -/
def isNonceChar (c : Char) : Bool :=
  (0x21 ≤ c.toNat && c.toNat ≤ 0x2B) || (0x2D ≤ c.toNat && c.toNat ≤ 0x7E)

/-- The nonce regular expression from line 110: `^[!-+--~]+$`. -/
def validNonce (s : String) : Bool :=
  !s.data.isEmpty && s.data.all isNonceChar

/-- The iteration-count regular expression from line 112: `^[1-9][0-9]*$`. -/
def validIterationText (s : String) : Bool :=
  match s.data with
  | [] => false
  | c :: rest =>
      (0x31 ≤ c.toNat && c.toNat ≤ 0x39) &&
      rest.all (fun d => 0x30 ≤ d.toNat && d.toNat ≤ 0x39)

/-- `parseInt(s, 10)` on a string matching `^[1-9][0-9]*$`; the value is kept
exact (IEEE-754 rounding of counts beyond 2^53 is not modelled). -/
def parseDecimal (s : String) : Nat :=
  s.data.foldl (fun a c => a * 10 + (c.toNat - 0x30)) 0

/-- `String.prototype.split(",")`: every maximal comma-free run, keeping empty
runs, so the empty string yields one empty entry. -/
def splitComma : List Char → List (List Char)
  | [] => [[]]
  | ',' :: rest => [] :: splitComma rest
  | c :: rest =>
      match splitComma rest with
      | g :: gs => (c :: g) :: gs
      | [] => [[c]]

/-- JS `.` in a regular expression without the `s` flag: any character except
a line terminator. -/
def jsDotChar (c : Char) : Bool :=
  c ≠ '\n' && c ≠ '\r' && c.toNat ≠ 0x2028 && c.toNat ≠ 0x2029

/-- One attribute pair, per lines 99-102: the entry must match `^.=`
(any non-terminator character followed by `=`); its name is the first
character and its value everything from index 2 on. Characters are Unicode
scalars; JS surrogate-pair code-unit effects are not modelled. -/
def parseEntryChars : List Char → Option (Char × String)
  | c :: '=' :: rest => if jsDotChar c then some (c, String.mk rest) else none
  | _ => none

/-- All attribute pairs of a server-first message; `none` models the thrown
`SASL: Invalid attribute pair entry`. -/
def parseEntries : List (List Char) → Option (List (Char × String))
  | [] => some []
  | e :: rest =>
      match parseEntryChars e, parseEntries rest with
      | some p, some ps => some (p :: ps)
      | _, _ => none

def parseAttrs (serverData : String) : Option (List (Char × String)) :=
  parseEntries (splitComma serverData.data)

/-- `Object.fromEntries(pairs)` read back at a single-character key: entries
are inserted left to right, later entries overwriting earlier ones. -/
def fromEntries (pairs : List (Char × String)) : Char → Option String :=
  pairs.foldl (fun m kv => fun k => if k = kv.1 then some kv.2 else m k) (fun _ => none)

/-- The value of the last pair carrying a given key, if any: the reference
reading of `Object.fromEntries` used by claim C10. -/
def lookupLast : List (Char × String) → Char → Option String
  | [], _ => none
  | kv :: rest, k =>
      match lookupLast rest k with
      | some v => some v
      | none => if kv.1 = k then some kv.2 else none

/-- `String.prototype.startsWith`, on the code-unit sequences. -/
def charsPrefix : List Char → List Char → Bool
  | [], _ => true
  | _ :: _, [] => false
  | p :: ps, c :: cs => p = c && charsPrefix ps cs

def jsStartsWith (s pre : String) : Bool := charsPrefix pre.data s.data

/-- The loop of lines 123-126: starting from `ui1` (the last round's output)
and `ui` (the running XOR total), run a further `count` rounds of HMAC keyed
by the password, XOR-accumulating each round's output into the total. -/
def saltedPasswordLoop (hmac : List Nat → List Nat → List Nat) (passwordBytes : List Nat) :
    List Nat → List Nat → Nat → List Nat
  | _, ui, 0 => ui
  | ui1, ui, count + 1 =>
      let next := hmac passwordBytes ui1
      saltedPasswordLoop hmac passwordBytes next (jsXor ui next) count

/-- Lines 121-127: the `saltedPassword` computed by `_handleAuthSASLContinue`:
the first round is HMAC over `salt || 0x00000001`, then `iterations - 1`
further rounds are XOR-accumulated by `saltedPasswordLoop`. -/
def scramSaltedPassword (hmac : List Nat → List Nat → List Nat)
    (passwordBytes saltBytes : List Nat) (iterations : Nat) : List Nat :=
  let ui1 := hmac passwordBytes (saltBytes ++ [0, 0, 0, 1])
  saltedPasswordLoop hmac passwordBytes ui1 ui1 (iterations - 1)

/-- Round `n` (0-based; round 0 is U1) of PBKDF2-over-HMAC-SHA-256 as the
specification states it: the first round is applied to `salt || 0x00000001`
and each subsequent round to the previous round's output. -/
def scramU (hmac : List Nat → List Nat → List Nat) (passwordBytes saltBytes : List Nat) :
    Nat → List Nat
  | 0 => hmac passwordBytes (saltBytes ++ [0, 0, 0, 1])
  | n + 1 => hmac passwordBytes (scramU hmac passwordBytes saltBytes n)

/-- The XOR-accumulation of rounds 0..n of `scramU`: the specification's
salted password for an iteration count of `n + 1`. -/
def pbkdf2Xor (hmac : List Nat → List Nat → List Nat) (passwordBytes saltBytes : List Nat) :
    Nat → List Nat
  | 0 => scramU hmac passwordBytes saltBytes 0
  | n + 1 =>
      jsXor (pbkdf2Xor hmac passwordBytes saltBytes n) (scramU hmac passwordBytes saltBytes (n + 1))

/-- The mutable SCRAM session object (`this.saslSession`): the current message
tag, the client nonce fixed at session start, and the fields written by a
successful exchange step. -/
structure SaslSession where
  message : String
  clientNonce : String
  serverSignature : Option String
  response : Option String
  deriving DecidableEq

/-- Lines 116-152 of `export/index.ts`: the computation performed once every
validation has passed, from `parseInt` through `sendSCRAMClientFinalMessage`.
`hmac key msg` abstracts `crypto.subtle.sign("HMAC", importKey(key), msg)` and
`sha256` abstracts `crypto.subtle.digest("SHA-256", -)`. The returned pair is
the updated session and the final client message handed to
`connection.sendSCRAMClientFinalMessage`. -/
def scramFinish (hmac : List Nat → List Nat → List Nat) (sha256 : List Nat → List Nat)
    (session : SaslSession) (password nonce salt iterationText : String) :
    Except String (SaslSession × String) :=
  let iterations := parseDecimal iterationText
  let saltBytes := base64Decode salt
  let passwordBytes := strBytes password
  let saltedPassword := scramSaltedPassword hmac passwordBytes saltBytes iterations
  let clientKey := hmac saltedPassword (strBytes "Client Key")
  let storedKey := sha256 clientKey
  let clientFirstMessageBare := "n=*,r=" ++ session.clientNonce
  let serverFirstMessage := "r=" ++ nonce ++ ",s=" ++ salt ++ ",i=" ++ toString iterations
  let clientFinalMessageWithoutProof := "c=biws,r=" ++ nonce
  let authMessage :=
    clientFirstMessageBare ++ "," ++ serverFirstMessage ++ "," ++ clientFinalMessageWithoutProof
  let clientSignature := hmac storedKey (strBytes authMessage)
  let clientProof := base64Encode (jsXor clientKey clientSignature)
  let serverKey := hmac saltedPassword (strBytes "Server Key")
  let serverSignature := base64Encode (hmac serverKey (strBytes authMessage))
  let response := clientFinalMessageWithoutProof ++ ",p=" ++ clientProof
  Except.ok ({ message := "SASLResponse", clientNonce := session.clientNonce,
               serverSignature := some serverSignature, response := some response }, response)

/-- Lines 106-114: the attribute checks run in source order, with the JS
truthiness test (`!x`) rejecting both a missing and an empty attribute before
its regular expression is consulted, then the two nonce-extension checks. -/
def continueWithAttrs (hmac : List Nat → List Nat → List Nat) (sha256 : List Nat → List Nat)
    (session : SaslSession) (password : String)
    (nonceAttr saltAttr iterationAttr : Option String) : Except String (SaslSession × String) :=
  match nonceAttr with
  | none => Except.error "SASL: SCRAM-SERVER-FIRST-MESSAGE: nonce missing/unprintable"
  | some nonce =>
    if nonce = "" then Except.error "SASL: SCRAM-SERVER-FIRST-MESSAGE: nonce missing/unprintable"
    else if validNonce nonce then
      match saltAttr with
      | none => Except.error "SASL: SCRAM-SERVER-FIRST-MESSAGE: salt missing/not base64"
      | some salt =>
        if salt = "" then
          Except.error "SASL: SCRAM-SERVER-FIRST-MESSAGE: salt missing/not base64"
        else if validBase64 salt then
          match iterationAttr with
          | none =>
              Except.error "SASL: SCRAM-SERVER-FIRST-MESSAGE: missing/invalid iteration count"
          | some iterationText =>
            if iterationText = "" then
              Except.error "SASL: SCRAM-SERVER-FIRST-MESSAGE: missing/invalid iteration count"
            else if validIterationText iterationText then
              if jsStartsWith nonce session.clientNonce then
                if nonce.length = session.clientNonce.length then
                  Except.error "SASL: SCRAM-SERVER-FIRST-MESSAGE: server nonce is too short"
                else scramFinish hmac sha256 session password nonce salt iterationText
              else
                Except.error
                  "SASL: SCRAM-SERVER-FIRST-MESSAGE: server nonce does not start with client nonce"
            else Except.error "SASL: SCRAM-SERVER-FIRST-MESSAGE: missing/invalid iteration count"
        else Except.error "SASL: SCRAM-SERVER-FIRST-MESSAGE: salt missing/not base64"
    else Except.error "SASL: SCRAM-SERVER-FIRST-MESSAGE: nonce missing/unprintable"

/-- `NeonClient._handleAuthSASLContinue` (lines 90-153). `password` and
`serverData` are `none` when the corresponding JS value is not a string.
An `Except.error` is a thrown exception: nothing is sent to the server. -/
def handleAuthSASLContinue (hmac : List Nat → List Nat → List Nat) (sha256 : List Nat → List Nat)
    (session : SaslSession) (password serverData : Option String) :
    Except String (SaslSession × String) :=
  if session.message = "SASLInitialResponse" then
    match password, serverData with
    | some pw, some sd =>
      match parseAttrs sd with
      | none => Except.error "SASL: Invalid attribute pair entry"
      | some attrPairs =>
          continueWithAttrs hmac sha256 session pw
            (fromEntries attrPairs 'r') (fromEntries attrPairs 's') (fromEntries attrPairs 'i')
    | _, _ => Except.error "SASL: protocol error"
  else Except.error "SASL: protocol error"

/-- The final client message as claim C2 states it, reading `authMessage` as
the comma-separated concatenation of the client-first-bare message, the
server-first message AS RECEIVED (`rawServerFirst`), and the
client-final-without-proof; the salted password, client key and stored key
follow the specification formulas. -/
def claimedFinalMessageRaw (hmac : List Nat → List Nat → List Nat) (sha256 : List Nat → List Nat)
    (clientNonce serverNonce salt : String) (iterations : Nat)
    (rawServerFirst password : String) : String :=
  let saltedPassword := pbkdf2Xor hmac (strBytes password) (base64Decode salt) (iterations - 1)
  let clientKey := hmac saltedPassword (strBytes "Client Key")
  let storedKey := sha256 clientKey
  let clientFirstMessageBare := "n=*,r=" ++ clientNonce
  let clientFinalMessageWithoutProof := "c=biws,r=" ++ serverNonce
  let authMessage :=
    clientFirstMessageBare ++ "," ++ rawServerFirst ++ "," ++ clientFinalMessageWithoutProof
  let clientSignature := hmac storedKey (strBytes authMessage)
  clientFinalMessageWithoutProof ++ ",p=" ++ base64Encode (jsXor clientKey clientSignature)

/-- The final client message with the server-first component of `authMessage`
reconstructed from the parsed attributes, `r=<nonce>,s=<salt>,i=<iterations>`,
as the code does; this equals `claimedFinalMessageRaw` exactly when the
received server-first message is in this canonical form. -/
def claimedFinalMessage (hmac : List Nat → List Nat → List Nat) (sha256 : List Nat → List Nat)
    (clientNonce serverNonce salt : String) (iterations : Nat) (password : String) : String :=
  claimedFinalMessageRaw hmac sha256 clientNonce serverNonce salt iterations
    ("r=" ++ serverNonce ++ ",s=" ++ salt ++ ",i=" ++ toString iterations) password

/-- The expected server signature as claim C4 states it:
`base64(HMAC(HMAC(saltedPassword, "Server Key"), authMessage))`, with the
salted password given by the specification's PBKDF2 formula and `authMessage`
the message the code signs. -/
def expectedServerSignature (hmac : List Nat → List Nat → List Nat)
    (clientNonce serverNonce salt : String) (iterations : Nat) (password : String) : String :=
  let saltedPassword := pbkdf2Xor hmac (strBytes password) (base64Decode salt) (iterations - 1)
  let clientFirstMessageBare := "n=*,r=" ++ clientNonce
  let serverFirstMessage := "r=" ++ serverNonce ++ ",s=" ++ salt ++ ",i=" ++ toString iterations
  let clientFinalMessageWithoutProof := "c=biws,r=" ++ serverNonce
  let authMessage :=
    clientFirstMessageBare ++ "," ++ serverFirstMessage ++ "," ++ clientFinalMessageWithoutProof
  base64Encode (hmac (hmac saltedPassword (strBytes "Server Key")) (strBytes authMessage))

/-- Modelled from the spec: the verification of the server's final message is
performed by the external protocol engine (the pg client library) against the
`serverSignature` retained in the session by `_handleAuthSASLContinue`; that
engine is not part of this repository's sources. Per the spec, a mismatch
must abort the connection rather than be ignored. -/
def verifyServerFinal (retained : Option String) (received : String) : Except String Unit :=
  if retained = some received then Except.ok ()
  else Except.error "SASL: server signature does not match"

/-- A small, order-sensitive stand-in digest used only to instantiate the
abstract provider parameters at concrete inputs in witnesses and
counterexamples. -/
def mixByte (a b : Nat) : Nat := (a * 31 + b) % 256

def toyHash (l : List Nat) : List Nat := [l.foldl mixByte 7]

def toyHmac (key msg : List Nat) : List Nat := toyHash (key ++ 0 :: msg)

/-- A fresh SCRAM session with client nonce `A`, for concrete instances. -/
def sess0 : SaslSession := ⟨"SASLInitialResponse", "A", none, none⟩

/-- Claim C3's reading of a usable nonce attribute: present and matching the
printable-ASCII-excluding-comma class. -/
def nonceClaimOk : Option String → Bool
  | none => false
  | some n => validNonce n

/-- Claim C3's reading of a usable salt attribute: present and valid base64. -/
def saltClaimOk : Option String → Bool
  | none => false
  | some s => validBase64 s

/-- Claim C3's reading of a usable iteration attribute: present and a positive
decimal integer. -/
def iterClaimOk : Option String → Bool
  | none => false
  | some s => validIterationText s

/-- Claim C3's freshness condition: the server nonce strictly extends the
client nonce. -/
def extendClaimOk : Option String → String → Bool
  | none, _ => false
  | some n, clientNonce => jsStartsWith n clientNonce && n.length != clientNonce.length

/-- The listeners appearing on the pg `Connection` in this development. The
first six stand for the external engine's normal handlers; the last three are
the listeners `NeonClient.connect` installs (lines 65, 78 and 81-84). -/
inductive Handler where
  | authCleartextPassword
  | authMD5Password
  | authSASL
  | authSASLContinue
  | authSASLFinal
  | readyForQuery
  | reinstallReadyForQuery
  | pipelineStartup
  | emitSSLAccept
  deriving DecidableEq

/-- Observable effects of running a handler: the direct method calls made by
the pipelined-startup handler, the normal handlers running, and data being
synthesized into the stream (`con.stream.emit("data", s)`). -/
inductive Action where
  | handleCleartextPassword
  | handleReadyForQuery
  | runAuthMD5
  | runAuthSASL
  | runAuthSASLContinue
  | runAuthSASLFinal
  | emitData (s : String)
  deriving DecidableEq

/-- An ordered Node listener table: event name, handler, `once` flag. -/
abbrev ListenerTable := List (String × Handler × Bool)

/-- `emitter.on(e, h)`: appends a persistent listener. -/
def addOn (t : ListenerTable) (e : String) (h : Handler) : ListenerTable :=
  t ++ [(e, h, false)]

/-- `emitter.once(e, h)`: appends a listener removed after its first call. -/
def addOnce (t : ListenerTable) (e : String) (h : Handler) : ListenerTable :=
  t ++ [(e, h, true)]

/-- `emitter.removeAllListeners(e)`. -/
def removeAll : ListenerTable → String → ListenerTable
  | [], _ => []
  | (e, h, o) :: rest, e2 =>
      if e = e2 then removeAll rest e2 else (e, h, o) :: removeAll rest e2

/-- The handlers registered for an event, in registration order. -/
def handlersFor : ListenerTable → String → List Handler
  | [], _ => []
  | (e, h, _) :: rest, e2 =>
      if e = e2 then h :: handlersFor rest e2 else handlersFor rest e2

/-- Drop the `once` listeners of an event (Node removes a `once` listener
before invoking it). -/
def pruneOnce : ListenerTable → String → ListenerTable
  | [], _ => []
  | (e, h, o) :: rest, e2 =>
      if e = e2 ∧ o = true then pruneOnce rest e2 else (e, h, o) :: pruneOnce rest e2

/-- The effect of one handler: the `once('readyForQuery')` body of line 78
reinstalls the engine's normal handler; the `connectEvent` handler of lines
81-84 calls `_handleAuthCleartextPassword()` then `_handleReadyForQuery()`
directly; the TLS hook of line 65 emits the byte `S` into the stream. -/
def runHandler : Handler → ListenerTable → ListenerTable × List Action
  | .authCleartextPassword, t => (t, [.handleCleartextPassword])
  | .authMD5Password, t => (t, [.runAuthMD5])
  | .authSASL, t => (t, [.runAuthSASL])
  | .authSASLContinue, t => (t, [.runAuthSASLContinue])
  | .authSASLFinal, t => (t, [.runAuthSASLFinal])
  | .readyForQuery, t => (t, [.handleReadyForQuery])
  | .reinstallReadyForQuery, t => (addOn t "readyForQuery" .readyForQuery, [])
  | .pipelineStartup, t => (t, [.handleCleartextPassword, .handleReadyForQuery])
  | .emitSSLAccept, t => (t, [.emitData "S"])

def runHandlers : List Handler → ListenerTable → ListenerTable × List Action
  | [], t => (t, [])
  | h :: rest, t =>
      let r1 := runHandler h t
      let r2 := runHandlers rest r1.1
      (r2.1, r1.2 ++ r2.2)

/-- `emitter.emit(e)`: snapshot the listener list, drop `once` listeners,
then run the snapshot in order (later table edits affect future emits only). -/
def emitEvent (t : ListenerTable) (e : String) : ListenerTable × List Action :=
  runHandlers (handlersFor t e) (pruneOnce t e)

/-- The external pg engine's normal listeners, installed by its own connect
routine before `NeonClient.connect` runs its pipelining logic. -/
def baseListeners : ListenerTable :=
  [("authenticationCleartextPassword", .authCleartextPassword, false),
   ("authenticationMD5Password", .authMD5Password, false),
   ("authenticationSASL", .authSASL, false),
   ("authenticationSASLContinue", .authSASLContinue, false),
   ("authenticationSASLFinal", .authSASLFinal, false),
   ("readyForQuery", .readyForQuery, false)]

/-- The configuration read by `NeonClient.connect`: `this.ssl` (truthy), the
`neonConfig.pipelineTLS` flag, and `neonConfig.pipelineConnect`, whose typed
values are `"password" | false`; `none` models every falsy value. -/
structure ConnectConfig where
  ssl : Bool
  pipelineTLSOpt : Bool
  pipelineConnectOpt : Option String
  deriving DecidableEq

/-- JS truthiness of a `string | false` value. -/
def jsTruthyOpt : Option String → Bool
  | none => false
  | some s => s ≠ ""

/-- Lines 53-85 of `export/index.ts`: the listener edits performed by
`NeonClient.connect` after delegating to `super.connect()`. -/
def connectSetup (cfg : ConnectConfig) (t : ListenerTable) : ListenerTable :=
  let pipelineTLS := cfg.pipelineTLSOpt && cfg.ssl
  let pipelineConnect := cfg.pipelineConnectOpt = some "password"
  if !pipelineTLS && !jsTruthyOpt cfg.pipelineConnectOpt then t
  else
    let t1 := if pipelineTLS then addOn t "connect" .emitSSLAccept else t
    if pipelineConnect then
      let t2 := removeAll t1 "authenticationCleartextPassword"
      let t3 := removeAll t2 "readyForQuery"
      let t4 := addOnce t3 "readyForQuery" .reinstallReadyForQuery
      let connectEvent := if cfg.ssl then "sslconnect" else "connect"
      addOn t4 connectEvent .pipelineStartup
    else t1

/-- The event whose handler performs the pipelined startup (line 80). -/
def connectEventName (ssl : Bool) : String := if ssl then "sslconnect" else "connect"

/-- The observable actions of a connection startup: the socket-connect event
fires, then the server's (single) authentication request arrives. -/
def startupActions (cfg : ConnectConfig) (authEvent : String) : List Action :=
  (emitEvent (connectSetup cfg baseListeners) (connectEventName cfg.ssl)).2 ++
    (emitEvent (emitEvent (connectSetup cfg baseListeners) (connectEventName cfg.ssl)).1
      authEvent).2

/-- Modelled from the spec: the net shim's reaction to the byte answering the
SSL request is implemented in `shims/net/index.ts`, which is not under the
sources here (only its type declarations in `dist/dts` are). Per the spec,
receiving the server's single-byte acceptance `S` immediately invokes
`startTls`; any other byte is a protocol desynchronization. -/
inductive TlsStep where
  | startTls
  | desyncError
  deriving DecidableEq

/-- Modelled from the spec: on the data synthesized (or received) in answer
to the SSL request, the acceptance byte `S` immediately invokes `startTls`. -/
def sslResponseStep (d : String) : TlsStep :=
  if d = "S" then .startTls else .desyncError

/-- Modelled from the spec: the HTTP query executor (`httpQuery`) is not under
the sources here (only its type declarations in `dist/dts` are). A decoded
column value in a query response. -/
inductive Value where
  | vNull
  | vInt (n : Int)
  | vStr (s : String)
  deriving DecidableEq

/-- A result column description, as in the declared `FieldDef`. -/
structure FieldDef where
  name : String
  dataTypeID : Nat
  deriving DecidableEq

/-- Rows shaped per `arrayMode`: objects keyed by column name, or positional
arrays, matching the declared `QueryRows` type. -/
inductive ShapedRows where
  | objects (rows : List (List (String × Value)))
  | arrays (rows : List (List Value))
  deriving DecidableEq

/-- The declared `FullQueryResults` envelope. -/
structure FullResultsEnvelope where
  fields : List FieldDef
  command : String
  rowCount : Nat
  rows : ShapedRows
  rowAsArray : Bool
  deriving DecidableEq

/-- A query result as returned to the caller: bare rows or the envelope. -/
inductive QueryResultShape where
  | bare (rows : ShapedRows)
  | full (r : FullResultsEnvelope)
  deriving DecidableEq

/-- One raw row as an object keyed by column name, in field order. -/
def rowToObject (fields : List FieldDef) (row : List Value) : List (String × Value) :=
  (fields.map FieldDef.name).zip row

/-- Modelled from the spec: the executor's response shaping. `arrayMode`
picks the row shape; `fullResults` picks bare rows or the
`{fields, command, rowCount, rows, rowAsArray}` envelope, with `rowAsArray`
reporting the active `arrayMode`. -/
def shapeRows (arrayMode : Bool) (fields : List FieldDef) (rawRows : List (List Value)) :
    ShapedRows :=
  if arrayMode then .arrays rawRows
  else .objects (rawRows.map (rowToObject fields))

/-- Modelled from the spec: the HTTP executor returns bare shaped rows when
`fullResults` is off, and the full envelope (with `rowCount` the number of
rows and `rowAsArray` the active `arrayMode`) when it is on. -/
def processQueryResult (arrayMode fullResults : Bool) (fields : List FieldDef)
    (command : String) (rawRows : List (List Value)) : QueryResultShape :=
  if fullResults then
    .full ⟨fields, command, rawRows.length, shapeRows arrayMode fields rawRows, arrayMode⟩
  else .bare (shapeRows arrayMode fields rawRows)

theorem saltedPasswordLoop_eq_pbkdf2Xor (hmac : List Nat → List Nat → List Nat)
    (pw salt : List Nat) (m : Nat) :
    ∀ n, saltedPasswordLoop hmac pw (scramU hmac pw salt n) (pbkdf2Xor hmac pw salt n) m
        = pbkdf2Xor hmac pw salt (n + m) := by
  induction m with
  | zero => intro n; rfl
  | succ m ih =>
      intro n
      have h := ih (n + 1)
      simp only [saltedPasswordLoop]
      have e1 : hmac pw (scramU hmac pw salt n) = scramU hmac pw salt (n + 1) := rfl
      have e2 : jsXor (pbkdf2Xor hmac pw salt n) (scramU hmac pw salt (n + 1))
          = pbkdf2Xor hmac pw salt (n + 1) := rfl
      rw [e1, e2, h]
      congr 1
      omega

theorem scramSaltedPassword_eq_pbkdf2Xor (hmac : List Nat → List Nat → List Nat)
    (pw salt : List Nat) (iterations : Nat) :
    scramSaltedPassword hmac pw salt iterations = pbkdf2Xor hmac pw salt (iterations - 1) := by
  have h := saltedPasswordLoop_eq_pbkdf2Xor hmac pw salt (iterations - 1) 0
  rw [Nat.zero_add] at h
  exact h

theorem parseDecimal_aux (l : List Char) (a : Nat) (h : 1 ≤ a) :
    1 ≤ l.foldl (fun a c => a * 10 + (c.toNat - 0x30)) a := by
  induction l generalizing a with
  | nil => simpa using h
  | cons c rest ih =>
      simp only [List.foldl]
      apply ih
      omega

theorem parseDecimal_pos (s : String) (h : validIterationText s = true) : 1 ≤ parseDecimal s := by
  unfold validIterationText at h
  unfold parseDecimal
  cases hd : s.data with
  | nil => rw [hd] at h; cases h
  | cons c rest =>
      rw [hd] at h
      simp only [Bool.and_eq_true, decide_eq_true_eq] at h
      simp only [List.foldl]
      apply parseDecimal_aux
      omega

theorem validNonce_ne_empty (s : String) (h : validNonce s = true) : s ≠ "" := by
  intro he
  subst he
  exact absurd h (by decide)

theorem validIterationText_ne_empty (s : String) (h : validIterationText s = true) : s ≠ "" := by
  intro he
  subst he
  exact absurd h (by decide)

theorem handle_eq_finish (hmac : List Nat → List Nat → List Nat) (sha256 : List Nat → List Nat)
    (session : SaslSession) (pw sd : String) (pairs : List (Char × String))
    (nonce salt iterationText : String)
    (hmsg : session.message = "SASLInitialResponse")
    (hparse : parseAttrs sd = some pairs)
    (hr : fromEntries pairs 'r' = some nonce) (hrv : validNonce nonce = true)
    (hs : fromEntries pairs 's' = some salt) (hs0 : salt ≠ "") (hsv : validBase64 salt = true)
    (hi : fromEntries pairs 'i' = some iterationText)
    (hiv : validIterationText iterationText = true)
    (hpre : jsStartsWith nonce session.clientNonce = true)
    (hlen : nonce.length ≠ session.clientNonce.length) :
    handleAuthSASLContinue hmac sha256 session (some pw) (some sd)
      = scramFinish hmac sha256 session pw nonce salt iterationText := by
  have hn0 : nonce ≠ "" := validNonce_ne_empty nonce hrv
  have hi0 : iterationText ≠ "" := validIterationText_ne_empty iterationText hiv
  simp only [handleAuthSASLContinue, hmsg, hparse, continueWithAttrs, hr, hs, hi,
    hrv, hsv, hiv, hpre, hn0, hs0, hi0, hlen, if_true, if_false, ite_true, ite_false,
    eq_self_iff_true, if_neg, if_pos]

/-- A successful step of `_handleAuthSASLContinue` implies every validation
passed, and the output is the `scramFinish` computation. -/
theorem handle_ok_conditions (hmac : List Nat → List Nat → List Nat)
    (sha256 : List Nat → List Nat) (session : SaslSession) (pw sd : String)
    (out : SaslSession × String)
    (h : handleAuthSASLContinue hmac sha256 session (some pw) (some sd) = Except.ok out) :
    session.message = "SASLInitialResponse"
    ∧ ∃ pairs nonce salt iterationText,
        parseAttrs sd = some pairs
        ∧ fromEntries pairs 'r' = some nonce ∧ validNonce nonce = true
        ∧ fromEntries pairs 's' = some salt ∧ salt ≠ "" ∧ validBase64 salt = true
        ∧ fromEntries pairs 'i' = some iterationText
        ∧ validIterationText iterationText = true
        ∧ jsStartsWith nonce session.clientNonce = true
        ∧ nonce.length ≠ session.clientNonce.length
        ∧ out.1.message = "SASLResponse"
        ∧ Except.ok out = scramFinish hmac sha256 session pw nonce salt iterationText := by
  simp only [handleAuthSASLContinue] at h
  split at h
  · rename_i hmsg
    split at h
    · exact absurd h (by simp)
    · rename_i pairs hp
      simp only [continueWithAttrs] at h
      split at h
      · exact absurd h (by simp)
      · rename_i nonce hr
        split at h
        · exact absurd h (by simp)
        · rename_i hn0
          split at h
          · rename_i hrv
            split at h
            · exact absurd h (by simp)
            · rename_i salt hs
              split at h
              · exact absurd h (by simp)
              · rename_i hs0
                split at h
                · rename_i hsv
                  split at h
                  · exact absurd h (by simp)
                  · rename_i iterationText hi
                    split at h
                    · exact absurd h (by simp)
                    · rename_i hi0
                      split at h
                      · rename_i hiv
                        split at h
                        · rename_i hpre
                          split at h
                          · exact absurd h (by simp)
                          · rename_i hlen
                            refine ⟨hmsg, pairs, nonce, salt, iterationText, hp, hr, hrv,
                              hs, hs0, hsv, hi, hiv, hpre, hlen, ?_, h.symm⟩
                            have h2 := h
                            simp only [scramFinish] at h2
                            rw [← Except.ok.inj h2]
                        · exact absurd h (by simp)
                      · exact absurd h (by simp)
                · exact absurd h (by simp)
          · exact absurd h (by simp)
  · exact absurd h (by simp)

/-- Claim C1: for every password, decoded salt, and iteration count at least 1
as accepted by validation, the `saltedPassword` computed by lines 121-127 of
`_handleAuthSASLContinue` equals the XOR-accumulation of `iterations` rounds
of HMAC keyed by the password, the first round applied to
`salt || 0x00000001` and each subsequent round to the previous round's
output — PBKDF2 over the HMAC with a single-block input. The theorem holds
for every digest function `hmac`, hence for HMAC-SHA-256. -/
theorem claimC1_saltedPassword_is_pbkdf2 (hmac : List Nat → List Nat → List Nat)
    (passwordBytes saltBytes : List Nat) (iterations : Nat) (_h : 1 ≤ iterations) :
    scramSaltedPassword hmac passwordBytes saltBytes iterations
      = pbkdf2Xor hmac passwordBytes saltBytes (iterations - 1) :=
  scramSaltedPassword_eq_pbkdf2Xor hmac passwordBytes saltBytes iterations

/-- Witness for C1 at a concrete provider, password, salt and count. -/
theorem claimC1_witness :
    1 ≤ 3 ∧ scramSaltedPassword toyHmac [1] [2] 3 = pbkdf2Xor toyHmac [1] [2] (3 - 1) :=
  ⟨by decide, claimC1_saltedPassword_is_pbkdf2 toyHmac [1] [2] 3 (by decide)⟩

/-- A successful `scramFinish` stores the expected server signature in the
session and emits the reconstructed-auth-message final client message. -/
theorem scramFinish_response (hmac : List Nat → List Nat → List Nat)
    (sha256 : List Nat → List Nat) (session : SaslSession)
    (pw nonce salt iterationText : String) :
    scramFinish hmac sha256 session pw nonce salt iterationText
      = Except.ok
          ({ message := "SASLResponse", clientNonce := session.clientNonce,
             serverSignature := some (expectedServerSignature hmac session.clientNonce nonce
               salt (parseDecimal iterationText) pw),
             response := some (claimedFinalMessage hmac sha256 session.clientNonce nonce
               salt (parseDecimal iterationText) pw) },
           claimedFinalMessage hmac sha256 session.clientNonce nonce salt
             (parseDecimal iterationText) pw) := by
  simp only [scramFinish, claimedFinalMessage, claimedFinalMessageRaw, expectedServerSignature,
    scramSaltedPassword_eq_pbkdf2Xor]

set_option maxRecDepth 8192 in
/-- Counterexample to claim C2 as stated: reading "the server-first message"
in the claimed `authMessage` as the message the server actually sent, the
validated server-first message `i=1,r=AB,s=QUJDRA==` (attributes permuted
from canonical order, which every validation accepts) makes the code's final
client message differ from the claimed formula, because lines 134-136 rebuild
the middle component of `authMessage` as `r=<nonce>,s=<salt>,i=<iterations>`
from the parsed attributes instead of using the received text. -/
theorem claimC2_counterexample :
    (handleAuthSASLContinue toyHmac toyHash sess0 (some "pw")
        (some "i=1,r=AB,s=QUJDRA==")).toOption.map Prod.snd
      ≠ some (claimedFinalMessageRaw toyHmac toyHash "A" "AB" "QUJDRA==" 1
          "i=1,r=AB,s=QUJDRA==" "pw") := by decide

/-- Claim C2 (amended): for every validated server-first message, the final
client message emitted equals `clientFinalMessageWithoutProof ++ ",p=" ++
clientProof` with `clientProof = base64(clientKey XOR HMAC(storedKey,
authMessage))`, where `authMessage` concatenates the client-first-bare
message, the server-first message RECONSTRUCTED from the parsed attributes as
`r=<nonce>,s=<salt>,i=<iterations>` (equal to the received message whenever
it is in canonical form), and the client-final-without-proof. -/
theorem claimC2_final_message (hmac : List Nat → List Nat → List Nat)
    (sha256 : List Nat → List Nat) (session : SaslSession) (pw sd : String)
    (pairs : List (Char × String)) (nonce salt iterationText : String)
    (hmsg : session.message = "SASLInitialResponse")
    (hparse : parseAttrs sd = some pairs)
    (hr : fromEntries pairs 'r' = some nonce) (hrv : validNonce nonce = true)
    (hs : fromEntries pairs 's' = some salt) (hs0 : salt ≠ "") (hsv : validBase64 salt = true)
    (hi : fromEntries pairs 'i' = some iterationText)
    (hiv : validIterationText iterationText = true)
    (hpre : jsStartsWith nonce session.clientNonce = true)
    (hlen : nonce.length ≠ session.clientNonce.length) :
    ∃ s2, handleAuthSASLContinue hmac sha256 session (some pw) (some sd)
        = Except.ok (s2, claimedFinalMessage hmac sha256 session.clientNonce nonce salt
            (parseDecimal iterationText) pw) := by
  rw [handle_eq_finish hmac sha256 session pw sd pairs nonce salt iterationText
    hmsg hparse hr hrv hs hs0 hsv hi hiv hpre hlen]
  exact ⟨_, scramFinish_response hmac sha256 session pw nonce salt iterationText⟩

/-- Witness for the amended C2 at a concrete provider and canonical message. -/
theorem claimC2_witness :
    ∃ s2, handleAuthSASLContinue toyHmac toyHash sess0 (some "pw")
        (some "r=AB,s=QUJDRA==,i=1")
      = Except.ok (s2, claimedFinalMessage toyHmac toyHash sess0.clientNonce "AB" "QUJDRA=="
          (parseDecimal "1") "pw") :=
  claimC2_final_message toyHmac toyHash sess0 "pw" "r=AB,s=QUJDRA==,i=1"
    [('r', "AB"), ('s', "QUJDRA=="), ('i', "1")] "AB" "QUJDRA==" "1"
    (by decide) (by decide) (by decide) (by decide) (by decide) (by decide) (by decide)
    (by decide) (by decide) (by decide) (by decide)

/-- Claim C3: a parsed server-first message whose nonce attribute is absent or
unprintable, or whose salt attribute is absent or not valid base64, or whose
iteration attribute is absent or not a positive decimal integer, or whose
server nonce does not strictly extend the client nonce, makes
`_handleAuthSASLContinue` throw; an `Except.error` result means no client
final message is computed or sent. -/
theorem claimC3_validation_failure_aborts (hmac : List Nat → List Nat → List Nat)
    (sha256 : List Nat → List Nat) (session : SaslSession) (pw sd : String)
    (pairs : List (Char × String))
    (hparse : parseAttrs sd = some pairs)
    (hbad : nonceClaimOk (fromEntries pairs 'r') = false
          ∨ saltClaimOk (fromEntries pairs 's') = false
          ∨ iterClaimOk (fromEntries pairs 'i') = false
          ∨ extendClaimOk (fromEntries pairs 'r') session.clientNonce = false) :
    ∃ e, handleAuthSASLContinue hmac sha256 session (some pw) (some sd) = Except.error e := by
  cases hh : handleAuthSASLContinue hmac sha256 session (some pw) (some sd) with
  | error e => exact ⟨e, rfl⟩
  | ok out =>
      exfalso
      obtain ⟨hmsg, pairs2, nonce, salt, iterationText, hp2, hr, hrv, hs, hs0, hsv, hi,
        hiv, hpre, hlen, hout, hfin⟩ := handle_ok_conditions hmac sha256 session pw sd out hh
      rw [hparse] at hp2
      obtain rfl := Option.some.inj hp2
      rcases hbad with hb | hb | hb | hb
      · rw [hr] at hb
        simp only [nonceClaimOk] at hb
        rw [hrv] at hb
        cases hb
      · rw [hs] at hb
        simp only [saltClaimOk] at hb
        rw [hsv] at hb
        cases hb
      · rw [hi] at hb
        simp only [iterClaimOk] at hb
        rw [hiv] at hb
        cases hb
      · rw [hr] at hb
        simp only [extendClaimOk, hpre, Bool.true_and] at hb
        rw [bne_eq_false_iff_eq] at hb
        exact hlen hb

/-- Witness for C3: an invalid iteration count `i=0` aborts the exchange. -/
theorem claimC3_witness :
    ∃ e, handleAuthSASLContinue toyHmac toyHash sess0 (some "pw")
        (some "r=AB,s=QUJDRA==,i=0") = Except.error e :=
  claimC3_validation_failure_aborts toyHmac toyHash sess0 "pw" "r=AB,s=QUJDRA==,i=0"
    [('r', "AB"), ('s', "QUJDRA=="), ('i', "0")] (by decide)
    (Or.inr (Or.inr (Or.inl (by decide))))

/-- Claim C4: after a successful exchange step the session retains exactly
`base64(HMAC(HMAC(saltedPassword, "Server Key"), authMessage))` as the
expected server signature, and the (spec-modelled) verification of the
server's final message against the retained value rejects any non-matching
signature with an error instead of ignoring it. -/
theorem claimC4_server_signature_retained (hmac : List Nat → List Nat → List Nat)
    (sha256 : List Nat → List Nat) (session : SaslSession) (pw sd : String)
    (pairs : List (Char × String)) (nonce salt iterationText : String)
    (hmsg : session.message = "SASLInitialResponse")
    (hparse : parseAttrs sd = some pairs)
    (hr : fromEntries pairs 'r' = some nonce) (hrv : validNonce nonce = true)
    (hs : fromEntries pairs 's' = some salt) (hs0 : salt ≠ "") (hsv : validBase64 salt = true)
    (hi : fromEntries pairs 'i' = some iterationText)
    (hiv : validIterationText iterationText = true)
    (hpre : jsStartsWith nonce session.clientNonce = true)
    (hlen : nonce.length ≠ session.clientNonce.length) :
    (handleAuthSASLContinue hmac sha256 session (some pw) (some sd)).toOption.map
        (fun out => out.1.serverSignature)
      = some (some (expectedServerSignature hmac session.clientNonce nonce salt
          (parseDecimal iterationText) pw))
    ∧ ∀ received : String,
        received ≠ expectedServerSignature hmac session.clientNonce nonce salt
          (parseDecimal iterationText) pw →
        verifyServerFinal
          (some (expectedServerSignature hmac session.clientNonce nonce salt
            (parseDecimal iterationText) pw)) received
          = Except.error "SASL: server signature does not match" := by
  constructor
  · rw [handle_eq_finish hmac sha256 session pw sd pairs nonce salt iterationText
      hmsg hparse hr hrv hs hs0 hsv hi hiv hpre hlen,
      scramFinish_response hmac sha256 session pw nonce salt iterationText]
    rfl
  · intro received hne
    simp only [verifyServerFinal]
    rw [if_neg (fun hcontra => hne (Option.some.inj hcontra).symm)]

/-- Witness for C4: the retained signature at a concrete provider, and the
rejection of the empty string as a mismatching server signature. -/
theorem claimC4_witness :
    (handleAuthSASLContinue toyHmac toyHash sess0 (some "pw")
        (some "r=AB,s=QUJDRA==,i=1")).toOption.map (fun out => out.1.serverSignature)
      = some (some (expectedServerSignature toyHmac sess0.clientNonce "AB" "QUJDRA=="
          (parseDecimal "1") "pw"))
    ∧ verifyServerFinal
        (some (expectedServerSignature toyHmac sess0.clientNonce "AB" "QUJDRA=="
          (parseDecimal "1") "pw")) ""
        = Except.error "SASL: server signature does not match" :=
  ⟨(claimC4_server_signature_retained toyHmac toyHash sess0 "pw" "r=AB,s=QUJDRA==,i=1"
      [('r', "AB"), ('s', "QUJDRA=="), ('i', "1")] "AB" "QUJDRA==" "1"
      (by decide) (by decide) (by decide) (by decide) (by decide) (by decide) (by decide)
      (by decide) (by decide) (by decide) (by decide)).1,
   (claimC4_server_signature_retained toyHmac toyHash sess0 "pw" "r=AB,s=QUJDRA==,i=1"
      [('r', "AB"), ('s', "QUJDRA=="), ('i', "1")] "AB" "QUJDRA==" "1"
      (by decide) (by decide) (by decide) (by decide) (by decide) (by decide) (by decide)
      (by decide) (by decide) (by decide) (by decide)).2 "" (by decide)⟩

/-- Claim C9: with a session tag other than `SASLInitialResponse`, or a
non-string password or server payload, `_handleAuthSASLContinue` throws
`SASL: protocol error` and sends nothing; the result is the same for every
cryptographic provider, so no cryptographic operation is consulted. Since a
successful step rewrites the tag to `SASLResponse`, a second continuation of
the same exchange throws the same error. -/
theorem claimC9_protocol_error_guard (hmacA hmacB : List Nat → List Nat → List Nat)
    (shaA shaB : List Nat → List Nat) (session s2 : SaslSession)
    (password serverData pw2 sd2 : Option String) (resp : String) :
    (session.message ≠ "SASLInitialResponse" ∨ password = none ∨ serverData = none →
      handleAuthSASLContinue hmacA shaA session password serverData
        = Except.error "SASL: protocol error")
    ∧ (handleAuthSASLContinue hmacA shaA session password serverData = Except.ok (s2, resp) →
      handleAuthSASLContinue hmacB shaB s2 pw2 sd2 = Except.error "SASL: protocol error") := by
  constructor
  · intro hbad
    rcases hbad with hb | hb | hb
    · simp [handleAuthSASLContinue, hb]
    · subst hb
      cases serverData <;> simp [handleAuthSASLContinue]
    · subst hb
      cases password <;> simp [handleAuthSASLContinue]
  · intro hok
    cases password with
    | none => exact absurd hok (by cases serverData <;> simp [handleAuthSASLContinue])
    | some pw =>
      cases serverData with
      | none => exact absurd hok (by simp [handleAuthSASLContinue])
      | some sd =>
        obtain ⟨-, -, -, -, -, -, -, -, -, -, -, -, -, -, -, hmsg2, -⟩ :=
          handle_ok_conditions hmacA shaA session pw sd (s2, resp) hok
        unfold handleAuthSASLContinue
        rw [hmsg2]
        rw [if_neg (by decide)]

/-- Witness for C9: a session already advanced to `SASLResponse` is refused. -/
theorem claimC9_witness :
    handleAuthSASLContinue toyHmac toyHash ⟨"SASLResponse", "A", none, none⟩
      (some "pw") (some "r=AB,s=QUJDRA==,i=1") = Except.error "SASL: protocol error" :=
  (claimC9_protocol_error_guard toyHmac toyHmac toyHash toyHash
    ⟨"SASLResponse", "A", none, none⟩ sess0 (some "pw") (some "r=AB,s=QUJDRA==,i=1")
    (some "pw") (some "r=AB,s=QUJDRA==,i=1") "").1 (Or.inl (by decide))

theorem fromEntries_foldl (pairs : List (Char × String)) (m : Char → Option String) (k : Char) :
    pairs.foldl (fun m kv => fun k => if k = kv.1 then some kv.2 else m k) m k
      = match lookupLast pairs k with
        | some v => some v
        | none => m k := by
  induction pairs generalizing m with
  | nil => rfl
  | cons p rest ih =>
      simp only [List.foldl, lookupLast]
      rw [ih]
      cases hL : lookupLast rest k with
      | some v => rfl
      | none =>
          by_cases hk : p.1 = k
          · subst hk
            simp
          · rw [if_neg (fun h2 : k = p.1 => hk h2.symm), if_neg hk]

theorem fromEntries_eq_lookupLast (pairs : List (Char × String)) (k : Char) :
    fromEntries pairs k = lookupLast pairs k := by
  have h := fromEntries_foldl pairs (fun _ => none) k
  unfold fromEntries
  rw [h]
  cases lookupLast pairs k <;> rfl

theorem parseEntries_isSome (entries : List (List Char))
    (h : (entries.all fun e => (parseEntryChars e).isSome) = true) :
    (parseEntries entries).isSome = true := by
  induction entries with
  | nil => rfl
  | cons e rest ih =>
      simp only [List.all_cons, Bool.and_eq_true] at h
      obtain ⟨h1, h2⟩ := h
      have h3 := ih h2
      simp only [parseEntries]
      cases hp : parseEntryChars e with
      | none => rw [hp] at h1; cases h1
      | some p =>
          cases hq : parseEntries rest with
          | none => rw [hq] at h3; cases h3
          | some ps => rfl

/-- Claim C10: duplicated attribute keys never make parsing fail — a message
splits into attribute pairs exactly when every entry matches `^.=` — and the
handler reads each attribute through `Object.fromEntries`, which keeps the
value of the LAST occurrence of a key; consequently two parsed messages
agreeing on the last occurrences of `r`, `s` and `i` drive the validation and
all proof computations identically. -/
theorem claimC10_last_attribute_wins (hmac : List Nat → List Nat → List Nat)
    (sha256 : List Nat → List Nat) (session : SaslSession) (pw : String)
    (sd sd2 : String) (pairs pairs2 : List (Char × String))
    (h1 : parseAttrs sd = some pairs) (h2 : parseAttrs sd2 = some pairs2)
    (hr : lookupLast pairs 'r' = lookupLast pairs2 'r')
    (hs : lookupLast pairs 's' = lookupLast pairs2 's')
    (hi : lookupLast pairs 'i' = lookupLast pairs2 'i') :
    handleAuthSASLContinue hmac sha256 session (some pw) (some sd)
      = handleAuthSASLContinue hmac sha256 session (some pw) (some sd2)
    ∧ (∀ (ps : List (Char × String)) (k : Char), fromEntries ps k = lookupLast ps k)
    ∧ (∀ entries : List (List Char),
        (entries.all fun e => (parseEntryChars e).isSome) = true →
        (parseEntries entries).isSome = true) := by
  refine ⟨?_, fromEntries_eq_lookupLast, parseEntries_isSome⟩
  simp only [handleAuthSASLContinue, h1, h2, fromEntries_eq_lookupLast, hr, hs, hi]

/-- Witness for C10: a message with two `r=` pairs behaves exactly as the
message keeping only the second one. -/
theorem claimC10_witness :
    handleAuthSASLContinue toyHmac toyHash sess0 (some "pw")
        (some "r=AA,r=AB,s=QUJDRA==,i=1")
      = handleAuthSASLContinue toyHmac toyHash sess0 (some "pw")
          (some "r=AB,s=QUJDRA==,i=1") :=
  (claimC10_last_attribute_wins toyHmac toyHash sess0 "pw"
    "r=AA,r=AB,s=QUJDRA==,i=1" "r=AB,s=QUJDRA==,i=1"
    [('r', "AA"), ('r', "AB"), ('s', "QUJDRA=="), ('i', "1")]
    [('r', "AB"), ('s', "QUJDRA=="), ('i', "1")]
    (by decide) (by decide) (by decide) (by decide) (by decide)).1

/-- Counterexample to claim C5 as stated: with `pipelineConnect = "password"`
configured, the speculative cleartext-password response and the synthesized
ready-for-query fire on the socket-connect event, before any server
authentication request is seen; on a connection whose server then demands
SASL, the trace still contains them, so pipelining HAS engaged, unlike the
unpipelined configuration whose trace is only the normal SASL handling. -/
theorem claimC5_counterexample :
    startupActions ⟨false, false, some "password"⟩ "authenticationSASL"
        = [Action.handleCleartextPassword, Action.handleReadyForQuery, Action.runAuthSASL]
    ∧ startupActions ⟨false, false, none⟩ "authenticationSASL" = [Action.runAuthSASL] := by
  decide

/-- Claim C5 (amended): the startup-pipelining listener edits are installed
exactly when `pipelineConnect` is set to `"password"` (measured here by the
cleartext-password listener being removed), and they touch only the
cleartext-password, ready-for-query and socket-connect events, so a server
demanding any other authentication mechanism has its request dispatched to
exactly the handlers of the unpipelined path; the speculative password and
ready-for-query synthesis, however, occur at connect time regardless of which
mechanism the server later demands. -/
theorem claimC5_pipelining_gating (cfg : ConnectConfig) (e : String)
    (h1 : e ≠ "authenticationCleartextPassword") (h2 : e ≠ "readyForQuery")
    (h3 : e ≠ "connect") (h4 : e ≠ "sslconnect") :
    handlersFor (connectSetup cfg baseListeners) "authenticationCleartextPassword"
      = (if cfg.pipelineConnectOpt = some "password" then []
         else [Handler.authCleartextPassword])
    ∧ handlersFor (connectSetup cfg baseListeners) e = handlersFor baseListeners e := by
  obtain ⟨ssl, ptls, pc⟩ := cfg
  have h1s : "authenticationCleartextPassword" ≠ e := Ne.symm h1
  have h2s : "readyForQuery" ≠ e := Ne.symm h2
  have h3s : "connect" ≠ e := Ne.symm h3
  have h4s : "sslconnect" ≠ e := Ne.symm h4
  by_cases hpc : pc = some "password"
  · subst hpc
    cases ssl <;> cases ptls <;>
      exact ⟨by decide, by
        simp [connectSetup, baseListeners, addOn, addOnce, removeAll, handlersFor,
          jsTruthyOpt, h1s, h2s, h3s, h4s]⟩
  · by_cases hjs : jsTruthyOpt pc = true
    · cases ssl <;> cases ptls <;>
        exact ⟨by
          simp [connectSetup, baseListeners, addOn, addOnce, removeAll, handlersFor,
            hjs, hpc], by
          simp [connectSetup, baseListeners, addOn, addOnce, removeAll, handlersFor,
            hjs, hpc, h1s, h2s, h3s, h4s]⟩
    · rw [Bool.not_eq_true] at hjs
      cases ssl <;> cases ptls <;>
        exact ⟨by
          simp [connectSetup, baseListeners, addOn, addOnce, removeAll, handlersFor,
            hjs, hpc], by
          simp [connectSetup, baseListeners, addOn, addOnce, removeAll, handlersFor,
            hjs, hpc, h1s, h2s, h3s, h4s]⟩

/-- Witness for the amended C5 at a concrete configuration and event. -/
theorem claimC5_witness :
    handlersFor (connectSetup ⟨true, true, none⟩ baseListeners)
        "authenticationCleartextPassword"
      = (if (⟨true, true, none⟩ : ConnectConfig).pipelineConnectOpt = some "password" then []
         else [Handler.authCleartextPassword])
    ∧ handlersFor (connectSetup ⟨true, true, none⟩ baseListeners) "authenticationSASL"
      = handlersFor baseListeners "authenticationSASL" :=
  claimC5_pipelining_gating ⟨true, true, none⟩ "authenticationSASL"
    (by decide) (by decide) (by decide) (by decide)

/-- Claim C6: on a pipelined-startup connection, processing the connect event
(`connect`, or `sslconnect` when Postgres SSL is on) synthesizes the
cleartext-password response and exactly one ready-for-query; the first real
`readyForQuery` message consumes the `once` listener, which reinstalls the
engine's normal handler — after it, the listener table holds exactly the
normal handler, so every subsequent real ready-for-query (e.g. between
queries) is handled by the normal handler. -/
theorem claimC6_ready_for_query_once (ssl ptls : Bool) :
    (emitEvent (connectSetup ⟨ssl, ptls, some "password"⟩ baseListeners)
        (connectEventName ssl)).2
      = [Action.handleCleartextPassword, Action.handleReadyForQuery]
    ∧ handlersFor
        (emitEvent
          (emitEvent (connectSetup ⟨ssl, ptls, some "password"⟩ baseListeners)
            (connectEventName ssl)).1
          "readyForQuery").1
        "readyForQuery"
      = [Handler.readyForQuery]
    ∧ (emitEvent
        (emitEvent
          (emitEvent (connectSetup ⟨ssl, ptls, some "password"⟩ baseListeners)
            (connectEventName ssl)).1
          "readyForQuery").1
        "readyForQuery").2
      = [Action.handleReadyForQuery] := by
  cases ssl <;> cases ptls <;> decide

/-- Claim C7: when `pipelineTLS` is requested and Postgres SSL is enabled,
the connect event synthesizes the server's single-byte SSL-acceptance
response `S` locally into the stream's data flow (rather than waiting for the
wire), and — per the spec-modelled shim behavior — receiving `S` immediately
invokes `startTls`. This holds whatever `pipelineConnect` is set to. -/
theorem claimC7_pipelined_tls (pc : Option String) :
    (emitEvent (connectSetup ⟨true, true, pc⟩ baseListeners) "connect").2
        = [Action.emitData "S"]
    ∧ sslResponseStep "S" = TlsStep.startTls := by
  refine ⟨?_, rfl⟩
  simp only [connectSetup]
  split
  · next hguard => exact absurd hguard (by simp)
  · split
    · rfl
    · rfl

/-- Claim C8: `arrayMode = false` (the default) yields rows as objects keyed
by column name and `arrayMode = true` yields positional arrays;
`fullResults = false` (the default) yields bare rows and `fullResults = true`
yields the `{fields, command, rowCount, rows, rowAsArray}` envelope whose
`rowAsArray` equals the active `arrayMode`; including the spec's
`SELECT 1 AS one` examples. -/
theorem claimC8_result_shaping (fields : List FieldDef) (command : String)
    (rawRows : List (List Value)) :
    processQueryResult false false fields command rawRows
        = QueryResultShape.bare (ShapedRows.objects (rawRows.map (rowToObject fields)))
    ∧ processQueryResult true false fields command rawRows
        = QueryResultShape.bare (ShapedRows.arrays rawRows)
    ∧ (∀ arrayMode : Bool, processQueryResult arrayMode true fields command rawRows
        = QueryResultShape.full
            ⟨fields, command, rawRows.length, shapeRows arrayMode fields rawRows, arrayMode⟩)
    ∧ processQueryResult false false [⟨"one", 23⟩] "SELECT" [[Value.vInt 1]]
        = QueryResultShape.bare (ShapedRows.objects [[("one", Value.vInt 1)]])
    ∧ processQueryResult true false [⟨"one", 23⟩] "SELECT" [[Value.vInt 1]]
        = QueryResultShape.bare (ShapedRows.arrays [[Value.vInt 1]])
    ∧ processQueryResult false true [⟨"one", 23⟩] "SELECT" [[Value.vInt 1]]
        = QueryResultShape.full
            ⟨[⟨"one", 23⟩], "SELECT", 1, ShapedRows.objects [[("one", Value.vInt 1)]], false⟩ :=
  ⟨rfl, rfl, fun _ => rfl, by decide, by decide, by decide⟩

end Neon
